import Mathlib

/-!
Shallow embedding of the two migration scripts of `actano/migration-scripts`:
the React 17→18 migration (`src/2025/migrate-to-react-18.js`) and the
Node 20→22 migration script.  Package manifests are modelled as association
lists from names to version-range strings; the regex tests of the scripts on
version ranges (`/17\./`, `/18/`, `/^18\./`, `/^y(es)?$/i`) are literal
substring / prefix tests on the character lists of those strings, which is
exactly what those regexes compute.
-/

namespace MigrationScripts

/-! ## String helpers (regex tests of the source, as substring tests) -/

/-- Does the character list `l` contain `pat` as a contiguous sublist?
This is what a JS regex of plain literal characters tests via `.test`. -/
def listContainsSub (pat : List Char) : List Char → Bool
  | [] => pat.isEmpty
  | c :: rest => List.isPrefixOf pat (c :: rest) || listContainsSub pat rest

/-- `strContains s pat`: `pat` occurs as a literal substring of `s`
(the JS test `/pat/.test(s)` for a pattern of literal characters). -/
def strContains (s pat : String) : Bool :=
  listContainsSub pat.data s.data

/-- `strStartsWith s pat`: `s` starts with the literal string `pat`
(the JS test `/^pat/.test(s)`). -/
def strStartsWith (s pat : String) : Bool :=
  List.isPrefixOf pat.data s.data

/-- ASCII whitespace test used to model `String.prototype.trim`. -/
def isWsChar (c : Char) : Bool :=
  c == ' ' || c == '\t' || c == '\n' || c == '\r'

/-- Trim leading and trailing whitespace from a character list. -/
def trimChars (l : List Char) : List Char :=
  ((l.dropWhile isWsChar).reverse.dropWhile isWsChar).reverse

/-- Lower-case an ASCII character (models the `i` flag of the JS regex). -/
def lowerChar (c : Char) : Char :=
  if 65 ≤ c.toNat && c.toNat ≤ 90 then Char.ofNat (c.toNat + 32) else c

/-! ## Manifests and the installed-package tree -/

/-- A dependency group of a `package.json` object: an association list from
package names to declared version-range strings.  `Option` distinguishes an
absent group (JS `undefined`, falsy) from an empty one. -/
abbrev DepGroup := Option (List (String × String))

/-- The project `package.json` data used by the React-18 script. -/
structure Pkg where
  dependencies : DepGroup
  devDependencies : DepGroup
  peerDependencies : DepGroup
deriving DecidableEq

/-- State of the installed manifest of one dependency under `node_modules`:
the file may be absent (`fs.existsSync` false), present but unparsable
(`JSON.parse` throws, caught by the script), or parsed, in which case its
own `peerDependencies` group is available. -/
inductive Installed
  | absent
  | unparsable
  | manifest (peerDependencies : DepGroup)
deriving DecidableEq

/-- The `node_modules` tree: dependency name to installed-manifest state.
A name not in the list is absent. -/
abbrev InstalledTree := List (String × Installed)

/-- Look up the installed-manifest state of a dependency; missing means absent. -/
def fsLookup (tree : InstalledTree) (dep : String) : Installed :=
  (List.lookup dep tree).getD Installed.absent

/-! ## Version configuration and fixed name lists of the React-18 script -/

/-- `TARGET_VERSIONS` of the source, as an ordered list of entries. -/
def targetVersions : List (String × String) :=
  [("react", "^18.3.1"), ("react-dom", "^18.3.1"),
   ("@testing-library/react", "^14.0.0"), ("react-test-renderer", "^18.3.1")]

/-- The `core` anchor list of `checkNonRplanPeerDepsForReact17Prompt`. -/
def coreAnchors : List String :=
  ["react", "react-dom", "@testing-library/react"]

/-- The anchor list of `checkRplanPeerDepsForReact17Prompt`. -/
def rplanAnchors : List String :=
  ["react", "react-dom"]

/-- `ignoreWarningsFor` of the source: the allow-list. -/
def ignoreWarningsFor : List String :=
  ["react-test-renderer"]

/-! ## Peer-requirement classification (the inner loops of both gates) -/

/-- An entry of the `issues` array both gate functions build:
the dependency name, the anchor peer name, and the required range. -/
structure Issue where
  name : String
  peer : String
  required : String
deriving DecidableEq

/-- The truthiness test `if (peer[key])` followed by reading the range:
yields the range only when the key is present with a non-empty string. -/
def peerRange (peers : List (String × String)) (key : String) : Option String :=
  match List.lookup key peers with
  | some v => if v == "" then none else some v
  | none => none

/-- The incompatibility condition of the source on a range string:
`/17\./.test(range) && !/18/.test(range)`. -/
def incompatibleRange (range : String) : Bool :=
  strContains range "17." && !(strContains range "18")

/-- The verdict type of the spec for a classified peer requirement. -/
inductive Verdict
  | compatible
  | incompatible
  | unknown
deriving DecidableEq

/-- Verdict of a single peer-requirement range, per the source condition. -/
def classifyRange (range : String) : Verdict :=
  if incompatibleRange range then Verdict.incompatible else Verdict.compatible

/-- The inner loop of both gate functions: for each anchor key, when the
parsed manifest of the dependency declares a (truthy) peer range for that key and
the range is incompatible, record an issue. -/
def checkDepIssues (anchors : List String) (peers : List (String × String))
    (dep : String) : List Issue :=
  anchors.filterMap fun key =>
    match peerRange peers key with
    | some range =>
        if incompatibleRange range then some ⟨dep, key, range⟩ else none
    | none => none

/-! ## Candidate enumeration and per-dependency processing -/

/-- `Object.keys({ ...a, ...b })`: keys of `a` in order, then keys of `b`
not already present in `a`. -/
def mergedDepKeys (pkg : Pkg) : List String :=
  let ka := (pkg.dependencies.getD []).map Prod.fst
  let kb := (pkg.devDependencies.getD []).map Prod.fst
  ka ++ kb.filter (fun k => !(ka.contains k))

/-- Candidates of the non-managed gate: all dependency names that are not
`@rplan/`-scoped and not one of the core anchors. -/
def nonRplanCandidates (pkg : Pkg) : List String :=
  (mergedDepKeys pkg).filter fun name =>
    !(strStartsWith name "@rplan/") && !(coreAnchors.contains name)

/-- Candidates of the managed-scope gate: the `@rplan/`-scoped names. -/
def rplanCandidates (pkg : Pkg) : List String :=
  (mergedDepKeys pkg).filter fun name => strStartsWith name "@rplan/"

/-- The allow-list condition of the source, per dependency group:
`group && group[dep] && /^18\./.test(group[dep])`. -/
def declaredAt18 (group : DepGroup) (dep : String) : Bool :=
  match group with
  | none => false
  | some d =>
      match List.lookup dep d with
      | some v => !(v == "") && strStartsWith v "18."
      | none => false

/-- The skip condition at the top of the loop of the non-managed gate: the
dependency is on the allow-list and the project already declares it with a
range starting with `18.` in `dependencies` or `devDependencies`. -/
def allowSkip (pkg : Pkg) (dep : String) : Bool :=
  ignoreWarningsFor.contains dep &&
    (declaredAt18 pkg.dependencies dep || declaredAt18 pkg.devDependencies dep)

/-- One iteration of the loop of the non-managed gate: allow-list skip, then the
installed manifest is read; absent (`continue`) and unparsable (`catch`)
both contribute no issues. -/
def processNonRplanDep (pkg : Pkg) (tree : InstalledTree) (dep : String) :
    List Issue :=
  if allowSkip pkg dep then []
  else
    match fsLookup tree dep with
    | Installed.absent => []
    | Installed.unparsable => []
    | Installed.manifest peers => checkDepIssues coreAnchors (peers.getD []) dep

/-- All issues collected by `checkNonRplanPeerDepsForReact17Prompt`. -/
def nonRplanIssues (pkg : Pkg) (tree : InstalledTree) : List Issue :=
  (nonRplanCandidates pkg).flatMap (processNonRplanDep pkg tree)

/-- One iteration of the loop of the managed-scope gate (no allow-list there). -/
def processRplanDep (tree : InstalledTree) (dep : String) : List Issue :=
  match fsLookup tree dep with
  | Installed.absent => []
  | Installed.unparsable => []
  | Installed.manifest peers => checkDepIssues rplanAnchors (peers.getD []) dep

/-- All issues collected by `checkRplanPeerDepsForReact17Prompt`. -/
def rplanIssues (pkg : Pkg) (tree : InstalledTree) : List Issue :=
  (rplanCandidates pkg).flatMap (processRplanDep tree)

/-! ## The operator prompt and the gate decision -/

/-- The affirmative-answer test of `promptContinue`:
`/^y(es)?$/i.test(answer.trim())`. -/
def isAffirmative (answer : String) : Bool :=
  let t := (trimChars answer.data).map lowerChar
  t == "y".data || t == "yes".data

/-- Outcome of a gate invocation: `abort` models `process.exit(1)` after a
declined prompt, `proceed` models falling through to the next step. -/
inductive Decision
  | proceed
  | abort
deriving DecidableEq

/-- Result of running a gate: the decision, and whether the operator prompt
(a stdin read) was issued at all. -/
structure GateResult where
  decision : Decision
  prompted : Bool
deriving DecidableEq

/-- The tail of both gate functions: with no issues, succeed silently;
otherwise prompt, and abort exactly when the answer is not affirmative. -/
def runGate (issues : List Issue) (answer : String) : GateResult :=
  if issues.isEmpty then ⟨Decision.proceed, false⟩
  else if isAffirmative answer then ⟨Decision.proceed, true⟩
  else ⟨Decision.abort, true⟩

/-! ## Manifest loading and editing (React-18 script) -/

/-- Result of `loadPackageJson`: the script calls `process.exit(1)` when no
`package.json` exists in the working directory, else returns the parsed data. -/
inductive LoadResult (α : Type)
  | halted (code : Nat)
  | ok (value : α)
deriving DecidableEq

/-- `loadPackageJson`, with the presence of `package.json` on disk and its
parsed content as explicit inputs. -/
def loadPackageJson (manifestPresent : Bool) (data : Pkg) : LoadResult Pkg :=
  if manifestPresent then LoadResult.ok data else LoadResult.halted 1

/-- `deps[name] = version` on an association list whose key is known to be
present: replace the value at `name`, keeping every other pair. -/
def setExisting : List (String × String) → String → String →
    List (String × String)
  | [], _, _ => []
  | p :: t, name, version =>
      (if p.1 == name then (name, version) else p) :: setExisting t name version

/-- `updateDeps(deps, name, version)`: only when the group exists and holds
a truthy entry for `name` is that entry overwritten. -/
def updateDeps : DepGroup → String → String → DepGroup
  | none, _, _ => none
  | some d, name, version =>
      match List.lookup name d with
      | some v => if v == "" then some d else some (setExisting d name version)
      | none => some d

/-- The loop body of `updateCoreReactDeps` for one `TARGET_VERSIONS` entry:
apply `updateDeps` to all three dependency groups. -/
def updateCoreStep (p : Pkg) (nv : String × String) : Pkg :=
  { dependencies := updateDeps p.dependencies nv.1 nv.2
    devDependencies := updateDeps p.devDependencies nv.1 nv.2
    peerDependencies := updateDeps p.peerDependencies nv.1 nv.2 }

/-- `updateCoreReactDeps` as a pure transformation of the manifest data:
fold the loop body over the `TARGET_VERSIONS` entries. -/
def updateCoreReactDeps (pkg : Pkg) : Pkg :=
  targetVersions.foldl updateCoreStep pkg

/-- Names of a dependency group (empty when the group is absent). -/
def depKeys (g : DepGroup) : List String :=
  (g.getD []).map Prod.fst

/-- Declared range of `name` in a dependency group, when present. -/
def depLookup (g : DepGroup) (name : String) : Option String :=
  match g with
  | none => none
  | some d => List.lookup name d

/-! ## The orchestrator of the React-18 script (`migrate`) -/

/-- The steps of `migrate`, in source order.  The three steps before the
gates all rewrite `package.json`: `updateCoreReactDeps` and
`syncRplanPeerDepsToInstalled` via `savePackageJson`, and the `ncu ... -u`
invocation by the external tool itself. -/
inductive MEvent
  | checkNcu
  | writeManifestCore
  | runNcuUpdate
  | writeManifestSync
  | gateRplan
  | gateNonRplan
  | npmInstall
deriving DecidableEq

/-- The fixed step sequence of `migrate`. -/
def migrateEvents : List MEvent :=
  [MEvent.checkNcu, MEvent.writeManifestCore, MEvent.runNcuUpdate,
   MEvent.writeManifestSync, MEvent.gateRplan, MEvent.gateNonRplan,
   MEvent.npmInstall]

/-- Does a step mutate the project manifest file on disk? -/
def isManifestWrite : MEvent → Bool
  | MEvent.writeManifestCore => true
  | MEvent.runNcuUpdate => true
  | MEvent.writeManifestSync => true
  | _ => false

/-- Is a step one of the two compatibility-gate invocations? -/
def isGateEvent : MEvent → Bool
  | MEvent.gateRplan => true
  | MEvent.gateNonRplan => true
  | _ => false

/-- The environment a `migrate` run executes in: which external commands
succeed, whether `package.json` exists, the manifest data the gates read
(loaded fresh after the three earlier rewrite steps), the installed tree,
and the operator answers to the two possible prompts. -/
structure MigrateEnv where
  ncuInstalled : Bool
  ncuGlobalInstallOk : Bool
  manifestPresent : Bool
  rplanNcuOk : Bool
  pkgAtGate : Pkg
  installedTree : InstalledTree
  answerRplan : String
  answerNonRplan : String
  npmInstallOk : Bool
deriving DecidableEq

/-- Exit code of a `migrate` run.  `ensureNCU` exits 1 when `ncu` is missing
and the global install fails; `loadPackageJson` exits 1 when the manifest is
absent; each gate exits 1 on an abort decision; a failing `npm install`
exits 1; otherwise the script completes (exit 0).  The `catch` around the
`ncu ... -u` step only logs, so `rplanNcuOk` does not influence the result. -/
def migrateExit (e : MigrateEnv) : Nat :=
  if !e.ncuInstalled && !e.ncuGlobalInstallOk then 1
  else if !e.manifestPresent then 1
  else if (runGate (rplanIssues e.pkgAtGate e.installedTree)
      e.answerRplan).decision = Decision.abort then 1
  else if (runGate (nonRplanIssues e.pkgAtGate e.installedTree)
      e.answerNonRplan).decision = Decision.abort then 1
  else if !e.npmInstallOk then 1
  else 0

/-! ## The Node-22 script (`src/unnamed/part_000`) -/

/-- The `package.json` data the Node-22 script edits: its `engines` object. -/
structure NodePkg where
  engines : DepGroup
deriving DecidableEq

/-- Outcome of `updateNodeVersionInPackageJson`: the source prints an error
and `return`s (the run continues, nothing written) when `package.json` is
absent; otherwise it writes the file with `engines.node` set. -/
inductive NodeStepResult
  | halted (code : Nat)
  | skipped
  | wrote (pkg : NodePkg)
deriving DecidableEq

/-- `NODE_VERSION` of the Node-22 script. -/
def nodeVersion : String := "22"

/-- JS property assignment `obj[k] = v` on an association list:
overwrite when present, append otherwise. -/
def assocSet (l : List (String × String)) (k v : String) :
    List (String × String) :=
  if (List.lookup k l).isSome then l.map (fun p => if p.1 == k then (k, v) else p)
  else l ++ [(k, v)]

/-- `updateNodeVersionInPackageJson`, with manifest presence and content as
explicit inputs. -/
def updateNodeVersionInPackageJson (manifestPresent : Bool) (pkg : NodePkg) :
    NodeStepResult :=
  if !manifestPresent then NodeStepResult.skipped
  else
    NodeStepResult.wrote
      ⟨some (assocSet (pkg.engines.getD []) "node" (String.append ">=" nodeVersion))⟩

/-- Outcome of `runCommand` in the Node-22 script: `process.exit(1)` when
the external command fails, fall through otherwise. -/
inductive CmdResult
  | ok
  | halted (code : Nat)
deriving DecidableEq

/-- `runCommand`, with the success of the external command as explicit input. -/
def runCommand (success : Bool) : CmdResult :=
  if success then CmdResult.ok else CmdResult.halted 1

example : strContains "^17.0.0" "17." = true := by decide
example : strContains "^17.0.0 || ^18.0.0" "18" = true := by decide
example : classifyRange "^17.0.0 || ^18.0.0" = Verdict.compatible := by decide
example : isAffirmative "YES" = true := by decide
example : isAffirmative " y " = true := by decide
example : isAffirmative "" = false := by decide
example : isAffirmative "no" = false := by decide
example :
    checkDepIssues coreAnchors [("react", "^17.0.2")] "widget-lib" =
      [⟨"widget-lib", "react", "^17.0.2"⟩] := by decide

/-! ## Helper lemmas -/

/-- Membership in the issue list of the inner classification loop,
characterized: an issue arises exactly from an anchor key with a truthy
declared peer range that satisfies the incompatibility condition. -/
theorem mem_checkDepIssues_iff {anchors : List String}
    {peers : List (String × String)} {dep : String} {i : Issue} :
    i ∈ checkDepIssues anchors peers dep ↔
      ∃ key ∈ anchors, ∃ range, peerRange peers key = some range ∧
        incompatibleRange range = true ∧ i = Issue.mk dep key range := by
  unfold checkDepIssues
  rw [List.mem_filterMap]
  constructor
  · rintro ⟨a, ha, hf⟩
    split at hf
    · split at hf
      · cases hf
        exact ⟨a, ha, _, by assumption, by assumption, rfl⟩
      · cases hf
    · cases hf
  · rintro ⟨key, hkey, range, hpr, hic, rfl⟩
    refine ⟨key, hkey, ?_⟩
    rw [hpr]
    simp [hic]

/-- Every issue recorded by the inner loop is tagged with the processed
dependency name. -/
theorem mem_checkDepIssues_name {anchors : List String}
    {peers : List (String × String)} {dep : String} {i : Issue}
    (h : i ∈ checkDepIssues anchors peers dep) : i.name = dep := by
  rcases mem_checkDepIssues_iff.mp h with ⟨key, _, range, _, _, rfl⟩
  rfl

/-- Every issue contributed by one iteration of the non-managed gate is
named after the dependency of that iteration. -/
theorem mem_processNonRplanDep_name {pkg : Pkg} {tree : InstalledTree}
    {d : String} {i : Issue} (h : i ∈ processNonRplanDep pkg tree d) :
    i.name = d := by
  unfold processNonRplanDep at h
  split at h
  · cases h
  · split at h
    · cases h
    · cases h
    · exact mem_checkDepIssues_name h

/-! ## C1: classification of declared peer requirements -/

/-- C1: for a dependency whose installed manifest declares a (truthy) peer
requirement on an anchor package, the gate records an Incompatible issue for
that anchor exactly when the range string contains the literal substring
`17.` and does not contain the literal substring `18` anywhere; a range
like `^17.0.0 || ^18.0.0` is therefore Compatible. -/
theorem checkDepIssues_incompatible_iff (anchors : List String)
    (peers : List (String × String)) (dep key range : String)
    (hkey : key ∈ anchors) (hlook : List.lookup key peers = some range)
    (hne : range ≠ "") :
    (Issue.mk dep key range ∈ checkDepIssues anchors peers dep ↔
      (strContains range "17." = true ∧ strContains range "18" = false))
    ∧ classifyRange "^17.0.0 || ^18.0.0" = Verdict.compatible := by
  have hpr : peerRange peers key = some range := by
    unfold peerRange
    rw [hlook]
    simp [beq_eq_false_iff_ne.mpr hne]
  refine ⟨?_, by decide⟩
  constructor
  · intro h
    rcases mem_checkDepIssues_iff.mp h with ⟨key2, _, range2, hpr2, hic2, heq⟩
    cases heq
    unfold incompatibleRange at hic2
    simp only [Bool.and_eq_true, Bool.not_eq_true'] at hic2
    exact hic2
  · rintro ⟨h17, h18⟩
    apply mem_checkDepIssues_iff.mpr
    refine ⟨key, hkey, range, hpr, ?_, rfl⟩
    unfold incompatibleRange
    rw [h17, h18]
    rfl

/-- Witness for C1 at a concrete incompatible input. -/
theorem checkDepIssues_incompatible_iff_witness :
    ((Issue.mk "widget-lib" "react" "^17.0.0" ∈
        checkDepIssues coreAnchors [("react", "^17.0.0")] "widget-lib") ↔
      (strContains "^17.0.0" "17." = true ∧ strContains "^17.0.0" "18" = false))
    ∧ classifyRange "^17.0.0 || ^18.0.0" = Verdict.compatible :=
  checkDepIssues_incompatible_iff coreAnchors [("react", "^17.0.0")]
    "widget-lib" "react" "^17.0.0" (by decide) (by decide) (by decide)

/-! ## C2: absent or unparsable installed manifests are skipped -/

/-- C2: a dependency whose installed manifest is absent or unparsable
contributes no issue in either gate (it is skipped, never classified
Incompatible), and such skipped dependencies never cause a prompt or an
abort on their own: when every other candidate contributes no issue, the
non-managed gate proceeds without prompting for every possible answer. -/
theorem missingInstalledManifestSkipped (pkg : Pkg) (tree : InstalledTree)
    (dep : String)
    (habs : fsLookup tree dep = Installed.absent ∨
      fsLookup tree dep = Installed.unparsable)
    (hothers : ∀ d ∈ nonRplanCandidates pkg, d ≠ dep →
      processNonRplanDep pkg tree d = []) :
    processNonRplanDep pkg tree dep = []
    ∧ processRplanDep tree dep = []
    ∧ ∀ ans, runGate (nonRplanIssues pkg tree) ans =
        ⟨Decision.proceed, false⟩ := by
  have h1 : processNonRplanDep pkg tree dep = [] := by
    by_cases hs : allowSkip pkg dep = true
    · simp [processNonRplanDep, hs]
    · rcases habs with h | h <;> simp [processNonRplanDep, hs, h]
  have h2 : processRplanDep tree dep = [] := by
    rcases habs with h | h <;> simp [processRplanDep, h]
  have hall : nonRplanIssues pkg tree = [] := by
    unfold nonRplanIssues
    rw [List.flatMap_eq_nil_iff]
    intro d hd
    by_cases hdd : d = dep
    · rw [hdd]; exact h1
    · exact hothers d hd hdd
  refine ⟨h1, h2, ?_⟩
  intro ans
  rw [hall]
  simp [runGate]

/-- Witness for C2: a project whose sole dependency has no installed
manifest; the gate proceeds without prompting. -/
theorem missingInstalledManifestSkipped_witness :
    processNonRplanDep (Pkg.mk (some [("widget-lib", "^1.0.0")]) none none)
      [] "widget-lib" = []
    ∧ processRplanDep [] "widget-lib" = []
    ∧ runGate (nonRplanIssues
        (Pkg.mk (some [("widget-lib", "^1.0.0")]) none none) []) "x" =
        ⟨Decision.proceed, false⟩ :=
  ⟨(missingInstalledManifestSkipped
      (Pkg.mk (some [("widget-lib", "^1.0.0")]) none none) [] "widget-lib"
      (by decide) (by decide)).1,
   (missingInstalledManifestSkipped
      (Pkg.mk (some [("widget-lib", "^1.0.0")]) none none) [] "widget-lib"
      (by decide) (by decide)).2.1,
   (missingInstalledManifestSkipped
      (Pkg.mk (some [("widget-lib", "^1.0.0")]) none none) [] "widget-lib"
      (by decide) (by decide)).2.2 "x"⟩

/-! ## C3: the allow-list exemption -/

/-- C3: a dependency on the allow-list that the project manifest already
declares at the new major version (a range starting with the literal `18.`,
in `dependencies` or `devDependencies`) is never classified Incompatible by
the non-managed gate, whatever peer ranges its installed manifest declares. -/
theorem allowListExemption (pkg : Pkg) (tree : InstalledTree) (dep : String)
    (hmem : ignoreWarningsFor.contains dep = true)
    (hdecl : (declaredAt18 pkg.dependencies dep ||
      declaredAt18 pkg.devDependencies dep) = true) :
    processNonRplanDep pkg tree dep = []
    ∧ ∀ i ∈ nonRplanIssues pkg tree, i.name ≠ dep := by
  have hs : allowSkip pkg dep = true := by
    unfold allowSkip
    rw [hmem, hdecl]
    rfl
  have h1 : processNonRplanDep pkg tree dep = [] := by
    simp [processNonRplanDep, hs]
  refine ⟨h1, ?_⟩
  intro i hi hname
  rcases List.mem_flatMap.mp hi with ⟨d, _, hpd⟩
  have hd : d = dep := by rw [← mem_processNonRplanDep_name hpd, hname]
  rw [hd, h1] at hpd
  cases hpd

/-- Witness for C3: `react-test-renderer` declared at `18.3.1` in the
project, while its installed manifest still requires only React 17. -/
theorem allowListExemption_witness :
    processNonRplanDep
      (Pkg.mk (some [("react-test-renderer", "18.3.1")]) none none)
      [("react-test-renderer",
        Installed.manifest (some [("react", "^17.0.2")]))]
      "react-test-renderer" = [] :=
  (allowListExemption
    (Pkg.mk (some [("react-test-renderer", "18.3.1")]) none none)
    [("react-test-renderer", Installed.manifest (some [("react", "^17.0.2")]))]
    "react-test-renderer" (by decide) (by decide)).1

/-! ## C10: exclusions of the non-managed gate -/

/-- C10: the non-managed gate never processes the anchor packages
themselves nor `@rplan/`-scoped packages: such a name is excluded from the
candidate set, and no issue of the gate is ever named after it. -/
theorem nonRplanGateExclusions (pkg : Pkg) (tree : InstalledTree) (n : String)
    (h : coreAnchors.contains n = true ∨ strStartsWith n "@rplan/" = true) :
    n ∉ nonRplanCandidates pkg
    ∧ ∀ i ∈ nonRplanIssues pkg tree, i.name ≠ n := by
  have hnc : n ∉ nonRplanCandidates pkg := by
    intro hn
    have hp := (List.mem_filter.mp hn).2
    simp only [Bool.and_eq_true, Bool.not_eq_true'] at hp
    rcases h with h | h
    · rw [hp.2] at h; exact absurd h (by decide)
    · rw [hp.1] at h; exact absurd h (by decide)
  refine ⟨hnc, ?_⟩
  intro i hi hname
  rcases List.mem_flatMap.mp hi with ⟨d, hd, hpd⟩
  have hdn : d = n := by rw [← mem_processNonRplanDep_name hpd, hname]
  rw [hdn] at hd
  exact hnc hd

/-- Witness for C10: an `@rplan/`-scoped dependency is not a candidate of
the non-managed gate even when it is declared in the project manifest. -/
theorem nonRplanGateExclusions_witness :
    "@rplan/ui" ∉ nonRplanCandidates
      (Pkg.mk (some [("@rplan/ui", "^1.0.0")]) none none) :=
  (nonRplanGateExclusions
    (Pkg.mk (some [("@rplan/ui", "^1.0.0")]) none none)
    [("@rplan/ui", Installed.manifest (some [("react", "^17.0.2")]))]
    "@rplan/ui" (Or.inr (by decide))).1

/-! ## C4: abort on any non-affirmative answer -/

/-- C4: when the gate has found at least one incompatibility, the decision
is abort (the script calls `process.exit(1)`) for every answer that is not
an affirmative token; the prompt is issued; an answer yields proceed exactly
when it is affirmative; and the empty answer is negative. -/
theorem gateAbortsWithoutAffirmative (issues : List Issue) (ans : String)
    (hne : issues ≠ []) (hans : isAffirmative ans = false) :
    (runGate issues ans).decision = Decision.abort
    ∧ (runGate issues ans).prompted = true
    ∧ (∀ a, isAffirmative a = true →
        (runGate issues a).decision = Decision.proceed)
    ∧ (∀ a, (runGate issues a).decision = Decision.proceed →
        isAffirmative a = true)
    ∧ isAffirmative "" = false := by
  have hie : issues.isEmpty = false := by
    cases issues with
    | nil => exact absurd rfl hne
    | cons a t => rfl
  refine ⟨?_, ?_, ?_, ?_, by decide⟩
  · simp [runGate, hie, hans]
  · simp [runGate, hie, hans]
  · intro a ha
    simp [runGate, hie, ha]
  · intro a ha
    by_cases h : isAffirmative a = true
    · exact h
    · rw [Bool.not_eq_true] at h
      simp [runGate, hie, h] at ha

/-- Witness for C4 at a concrete issue list and answers. -/
theorem gateAbortsWithoutAffirmative_witness :
    (runGate [Issue.mk "widget-lib" "react" "^17.0.0"] "n").decision =
      Decision.abort
    ∧ (runGate [Issue.mk "widget-lib" "react" "^17.0.0"] "yes").decision =
      Decision.proceed
    ∧ isAffirmative "" = false :=
  ⟨(gateAbortsWithoutAffirmative [Issue.mk "widget-lib" "react" "^17.0.0"]
      "n" (by decide) (by decide)).1,
   (gateAbortsWithoutAffirmative [Issue.mk "widget-lib" "react" "^17.0.0"]
      "n" (by decide) (by decide)).2.2.1 "yes" (by decide),
   (gateAbortsWithoutAffirmative [Issue.mk "widget-lib" "react" "^17.0.0"]
      "n" (by decide) (by decide)).2.2.2.2⟩

/-! ## C5: silent proceed without incompatibilities -/

/-- C5: when a gate has collected no issue, it proceeds for every possible
answer and without issuing the operator prompt (no stdin read), in both the
managed-scope and the non-managed invocation. -/
theorem gateProceedsSilently (pkg : Pkg) (tree : InstalledTree)
    (h1 : rplanIssues pkg tree = []) (h2 : nonRplanIssues pkg tree = []) :
    (∀ ans, runGate (rplanIssues pkg tree) ans = ⟨Decision.proceed, false⟩)
    ∧ (∀ ans, runGate (nonRplanIssues pkg tree) ans =
        ⟨Decision.proceed, false⟩) := by
  constructor
  · intro ans
    rw [h1]
    simp [runGate]
  · intro ans
    rw [h2]
    simp [runGate]

/-- Witness for C5: a project whose sole dependency declares a React-18
compatible peer range; both gates proceed without prompting. -/
theorem gateProceedsSilently_witness :
    runGate (rplanIssues (Pkg.mk (some [("widget-lib", "^1.0.0")]) none none)
      [("widget-lib", Installed.manifest (some [("react", "^18.2.0")]))]) "n"
      = ⟨Decision.proceed, false⟩
    ∧ runGate (nonRplanIssues
        (Pkg.mk (some [("widget-lib", "^1.0.0")]) none none)
        [("widget-lib", Installed.manifest (some [("react", "^18.2.0")]))]) "n"
      = ⟨Decision.proceed, false⟩ :=
  ⟨(gateProceedsSilently (Pkg.mk (some [("widget-lib", "^1.0.0")]) none none)
      [("widget-lib", Installed.manifest (some [("react", "^18.2.0")]))]
      (by decide) (by decide)).1 "n",
   (gateProceedsSilently (Pkg.mk (some [("widget-lib", "^1.0.0")]) none none)
      [("widget-lib", Installed.manifest (some [("react", "^18.2.0")]))]
      (by decide) (by decide)).2 "n"⟩

/-! ## C6: ordering of manifest writes and gate checks -/

/-- C6 counterexample: it is not true that every manifest write of the
`migrate` sequence comes after every gate step; `updateCoreReactDeps`
(step index 1) rewrites `package.json` before the first gate (index 4). -/
theorem manifestWriteBeforeGate_counterexample :
    ¬ (∀ i j : Fin migrateEvents.length,
        isManifestWrite (migrateEvents.get i) = true →
        isGateEvent (migrateEvents.get j) = true →
        (j : Nat) < (i : Nat)) := by
  decide

/-- C6 amended: in the `migrate` sequence every manifest write strictly
precedes every gate step, the gate steps themselves never write the
manifest, and the installer invocation comes strictly after both gates: the
gate guards the installer, not the manifest edits. -/
theorem manifestWritesPrecedeGates :
    (∀ i j : Fin migrateEvents.length,
      isManifestWrite (migrateEvents.get i) = true →
      isGateEvent (migrateEvents.get j) = true → (i : Nat) < (j : Nat))
    ∧ (∀ j : Fin migrateEvents.length,
        isGateEvent (migrateEvents.get j) = true →
        isManifestWrite (migrateEvents.get j) = false)
    ∧ (∀ j k : Fin migrateEvents.length,
        isGateEvent (migrateEvents.get j) = true →
        migrateEvents.get k = MEvent.npmInstall → (j : Nat) < (k : Nat)) := by
  decide

/-- Witness for the amended C6 at concrete step indices. -/
theorem manifestWritesPrecedeGates_witness :
    ((⟨1, by decide⟩ : Fin migrateEvents.length) : Nat) <
      ((⟨4, by decide⟩ : Fin migrateEvents.length) : Nat) :=
  manifestWritesPrecedeGates.1 ⟨1, by decide⟩ ⟨4, by decide⟩
    (by decide) (by decide)

/-! ## C7: behavior on a missing project manifest -/

/-- C7 counterexample: in the Node-22 script, a missing `package.json` does
not halt the run; `updateNodeVersionInPackageJson` logs an error and
returns, and the migration continues with the next step. -/
theorem nodeScriptContinuesOnMissingManifest :
    updateNodeVersionInPackageJson false (NodePkg.mk none) =
      NodeStepResult.skipped
    ∧ NodeStepResult.skipped ≠ NodeStepResult.halted 1 := by
  decide

/-- C7 amended: in the React-18 script a missing `package.json` halts the
run immediately with exit code 1 (`loadPackageJson` exits, and `migrate`
terminates with exit code 1 once `ensureNCU` has passed); in the Node-22
script the manifest-update step is skipped and the run continues. -/
theorem missingManifestBehavior (pkg : Pkg) (np : NodePkg) (e : MigrateEnv)
    (hm : e.manifestPresent = false)
    (hn : (e.ncuInstalled || e.ncuGlobalInstallOk) = true) :
    loadPackageJson false pkg = LoadResult.halted 1
    ∧ migrateExit e = 1
    ∧ updateNodeVersionInPackageJson false np = NodeStepResult.skipped := by
  refine ⟨rfl, ?_, rfl⟩
  have hncu : (!e.ncuInstalled && !e.ncuGlobalInstallOk) = false := by
    cases h1 : e.ncuInstalled
    · cases h2 : e.ncuGlobalInstallOk
      · rw [h1, h2] at hn; exact absurd hn (by decide)
      · rfl
    · rfl
  unfold migrateExit
  rw [hncu, hm]
  rfl

/-- Witness for the amended C7 at concrete inputs. -/
theorem missingManifestBehavior_witness :
    loadPackageJson false (Pkg.mk none none none) = LoadResult.halted 1
    ∧ migrateExit (MigrateEnv.mk true true false true (Pkg.mk none none none)
        [] "" "" true) = 1
    ∧ updateNodeVersionInPackageJson false (NodePkg.mk none) =
        NodeStepResult.skipped :=
  missingManifestBehavior (Pkg.mk none none none) (NodePkg.mk none)
    (MigrateEnv.mk true true false true (Pkg.mk none none none) [] "" "" true)
    (by decide) (by decide)

/-! ## C8: exit codes of a run -/

/-- C8 counterexample: a run in which the external `ncu ... -u` update of
the `@rplan/*` dependencies fails still exits with code 0 when everything
else succeeds — the `catch` around that step only logs — so it is not true
that any external command failure yields a non-zero exit. -/
theorem ncuUpdateFailureNotFatal :
    migrateExit (MigrateEnv.mk true true true false (Pkg.mk none none none)
      [] "" "" true) = 0
    ∧ (MigrateEnv.mk true true true false (Pkg.mk none none none)
      [] "" "" true).rplanNcuOk = false := by
  decide

/-- C8 amended: the React-18 script exits 0 exactly when `ensureNCU`
passes, the manifest is present, both gates decide proceed, and
`npm install` succeeds; any gate abort and those command failures yield a
non-zero exit, but a failure of the `@rplan/*` ncu update step does not
change the exit code; in the Node-22 script every `runCommand` failure
halts with exit code 1. -/
theorem migrateExitCharacterization (e : MigrateEnv) :
    (migrateExit e = 0 ↔
      ((e.ncuInstalled || e.ncuGlobalInstallOk) = true
        ∧ e.manifestPresent = true
        ∧ (runGate (rplanIssues e.pkgAtGate e.installedTree)
            e.answerRplan).decision = Decision.proceed
        ∧ (runGate (nonRplanIssues e.pkgAtGate e.installedTree)
            e.answerNonRplan).decision = Decision.proceed
        ∧ e.npmInstallOk = true))
    ∧ (∀ b, migrateExit { e with rplanNcuOk := b } = migrateExit e)
    ∧ (∀ b, runCommand b = CmdResult.halted 1 ↔ b = false) := by
  refine ⟨?_, fun b => rfl, fun b => by cases b <;> decide⟩
  unfold migrateExit
  cases hd1 : (runGate (rplanIssues e.pkgAtGate e.installedTree)
      e.answerRplan).decision <;>
    cases hd2 : (runGate (nonRplanIssues e.pkgAtGate e.installedTree)
      e.answerNonRplan).decision <;>
    cases h1 : e.ncuInstalled <;> cases h2 : e.ncuGlobalInstallOk <;>
    cases h3 : e.manifestPresent <;> cases h4 : e.npmInstallOk <;>
    simp_all

/-! ## C9: frame property of `updateCoreReactDeps` -/

/-- Overwriting an existing entry keeps the key list unchanged. -/
theorem setExisting_keys (d : List (String × String)) (n v : String) :
    (setExisting d n v).map Prod.fst = d.map Prod.fst := by
  induction d with
  | nil => rfl
  | cons p t ih =>
    by_cases h : (p.1 == n) = true
    · simp only [setExisting, if_pos h, List.map_cons, ih]
      rw [eq_of_beq h]
    · simp only [setExisting, if_neg h, List.map_cons, ih]

/-- Overwriting the entry of `n` does not change lookups of other names. -/
theorem lookup_setExisting_ne (d : List (String × String)) (n v m : String)
    (hm : m ≠ n) : List.lookup m (setExisting d n v) = List.lookup m d := by
  induction d with
  | nil => rfl
  | cons p t ih =>
    have hmn : (m == n) = false := beq_eq_false_iff_ne.mpr hm
    by_cases h : (p.1 == n) = true
    · have hmp : (m == p.1) = false := by rw [eq_of_beq h]; exact hmn
      simp only [setExisting]
      rw [if_pos h]
      simp only [List.lookup]
      rw [hmn, hmp]
      exact ih
    · simp only [setExisting]
      rw [if_neg h]
      simp only [List.lookup]
      cases hmp : (m == p.1) with
      | false => exact ih
      | true => rfl

/-- `updateDeps` keeps the key list of a group unchanged. -/
theorem updateDeps_keys (g : DepGroup) (n v : String) :
    depKeys (updateDeps g n v) = depKeys g := by
  cases g with
  | none => rfl
  | some d =>
    simp only [updateDeps]
    cases h : List.lookup n d with
    | none => rfl
    | some w =>
      by_cases hw : (w == "") = true
      · show depKeys (if (w == "") = true then some d
            else some (setExisting d n v)) = depKeys (some d)
        rw [if_pos hw]
      · show depKeys (if (w == "") = true then some d
            else some (setExisting d n v)) = depKeys (some d)
        rw [if_neg hw]
        simp only [depKeys, Option.getD_some]
        exact setExisting_keys d n v

/-- `updateDeps` does not change lookups of names other than the target. -/
theorem updateDeps_lookup_ne (g : DepGroup) (n v m : String) (hm : m ≠ n) :
    depLookup (updateDeps g n v) m = depLookup g m := by
  cases g with
  | none => rfl
  | some d =>
    simp only [updateDeps]
    cases h : List.lookup n d with
    | none => rfl
    | some w =>
      by_cases hw : (w == "") = true
      · show depLookup (if (w == "") = true then some d
            else some (setExisting d n v)) m = depLookup (some d) m
        rw [if_pos hw]
      · show depLookup (if (w == "") = true then some d
            else some (setExisting d n v)) m = depLookup (some d) m
        rw [if_neg hw]
        simp only [depLookup]
        exact lookup_setExisting_ne d n v m hm

/-- Folding the update step over any target list keeps all three key lists
unchanged. -/
theorem foldTargets_keys (ts : List (String × String)) :
    ∀ p : Pkg,
      depKeys (ts.foldl updateCoreStep p).dependencies =
        depKeys p.dependencies
      ∧ depKeys (ts.foldl updateCoreStep p).devDependencies =
        depKeys p.devDependencies
      ∧ depKeys (ts.foldl updateCoreStep p).peerDependencies =
        depKeys p.peerDependencies := by
  induction ts with
  | nil => intro p; exact ⟨rfl, rfl, rfl⟩
  | cons t ts ih =>
    intro p
    have hstep := ih (updateCoreStep p t)
    simp only [List.foldl_cons]
    refine ⟨?_, ?_, ?_⟩
    · rw [hstep.1]; exact updateDeps_keys _ _ _
    · rw [hstep.2.1]; exact updateDeps_keys _ _ _
    · rw [hstep.2.2]; exact updateDeps_keys _ _ _

/-- Folding the update step over any target list does not change lookups of
names outside the target list, in any of the three groups. -/
theorem foldTargets_lookup (ts : List (String × String)) :
    ∀ (p : Pkg) (m : String), (∀ t ∈ ts, t.1 ≠ m) →
      depLookup (ts.foldl updateCoreStep p).dependencies m =
        depLookup p.dependencies m
      ∧ depLookup (ts.foldl updateCoreStep p).devDependencies m =
        depLookup p.devDependencies m
      ∧ depLookup (ts.foldl updateCoreStep p).peerDependencies m =
        depLookup p.peerDependencies m := by
  induction ts with
  | nil => intro p m _; exact ⟨rfl, rfl, rfl⟩
  | cons t ts ih =>
    intro p m hm
    have hmt : m ≠ t.1 := Ne.symm (hm t (List.mem_cons_self t ts))
    have hstep := ih (updateCoreStep p t) m
      (fun u hu => hm u (List.mem_cons_of_mem t hu))
    simp only [List.foldl_cons]
    refine ⟨?_, ?_, ?_⟩
    · rw [hstep.1]; exact updateDeps_lookup_ne _ _ _ _ hmt
    · rw [hstep.2.1]; exact updateDeps_lookup_ne _ _ _ _ hmt
    · rw [hstep.2.2]; exact updateDeps_lookup_ne _ _ _ _ hmt

/-- C9: `updateCoreReactDeps` never adds or removes a key in any of the
three dependency groups (it only overwrites entries that already exist),
and every entry whose name is not among the four target packages keeps its
declared range in all three groups. -/
theorem updateCoreReactDeps_frame (pkg : Pkg) (m : String)
    (hm : ∀ t ∈ targetVersions, t.1 ≠ m) :
    depKeys (updateCoreReactDeps pkg).dependencies = depKeys pkg.dependencies
    ∧ depKeys (updateCoreReactDeps pkg).devDependencies =
        depKeys pkg.devDependencies
    ∧ depKeys (updateCoreReactDeps pkg).peerDependencies =
        depKeys pkg.peerDependencies
    ∧ depLookup (updateCoreReactDeps pkg).dependencies m =
        depLookup pkg.dependencies m
    ∧ depLookup (updateCoreReactDeps pkg).devDependencies m =
        depLookup pkg.devDependencies m
    ∧ depLookup (updateCoreReactDeps pkg).peerDependencies m =
        depLookup pkg.peerDependencies m := by
  have hk := foldTargets_keys targetVersions pkg
  have hl := foldTargets_lookup targetVersions pkg m hm
  exact ⟨hk.1, hk.2.1, hk.2.2, hl.1, hl.2.1, hl.2.2⟩

/-- Witness for C9: a non-target entry keeps its range, and the key list of
a group containing a target entry is unchanged, on a concrete manifest. -/
theorem updateCoreReactDeps_frame_witness :
    depLookup (updateCoreReactDeps (Pkg.mk
        (some [("react", "^17.0.2"), ("lodash", "^4.17.21")]) none
        none)).dependencies "lodash" =
      depLookup (Pkg.mk (some [("react", "^17.0.2"), ("lodash", "^4.17.21")])
        none none).dependencies "lodash"
    ∧ depKeys (updateCoreReactDeps (Pkg.mk
        (some [("react", "^17.0.2"), ("lodash", "^4.17.21")]) none
        none)).dependencies =
      depKeys (Pkg.mk (some [("react", "^17.0.2"), ("lodash", "^4.17.21")])
        none none).dependencies :=
  ⟨(updateCoreReactDeps_frame
      (Pkg.mk (some [("react", "^17.0.2"), ("lodash", "^4.17.21")]) none none)
      "lodash" (by decide)).2.2.2.1,
   (updateCoreReactDeps_frame
      (Pkg.mk (some [("react", "^17.0.2"), ("lodash", "^4.17.21")]) none none)
      "lodash" (by decide)).1⟩

end MigrationScripts
